import Mathlib

/-!
Verification of the my-studies-app Angular application core:
the trusted-content resolution components (`GistComponent`, two variants),
the shell layout controller (`AppComponent`) with its debounced resize
handling, and the routing table (`app-routing.module.ts`).

Each TypeScript class is embedded as a Lean structure; lifecycle hooks and
event callbacks become pure state-transition functions; timers become
explicit remaining-time fields advanced by an `elapse` function; the rxjs
`debounceTime` operator is embedded as a function on timestamped event
lists.
-/

namespace MyStudiesApp

/-- The asset path template from `gist.component.ts`:
the template literal `assets/html/gist_${this.gistId}.html`,
substituting the identifier verbatim. -/
def gistUrlTemplate (gistId : String) : String :=
  "assets/html/gist_" ++ gistId ++ ".html"

/-- Model of Angular's `SafeResourceUrl` values as they occur in this code:
either a plain string (the components initialize `safeUrl` to the string
`''`) or a value wrapped by the sanitizer's trust primitive. -/
inductive SafeResourceUrl where
  | plain (s : String)
  | trusted (s : String)
  deriving Repr, DecidableEq

/-- The underlying path of a `SafeResourceUrl` value. -/
def SafeResourceUrl.underlying : SafeResourceUrl → String
  | .plain s => s
  | .trusted s => s

/-- Model of `DomSanitizer.bypassSecurityTrustResourceUrl`: an external
capability that wraps a string path as a sandbox-trusted locator without
modifying it. -/
def bypassSecurityTrustResourceUrl (s : String) : SafeResourceUrl :=
  SafeResourceUrl.trusted s

/-! ## Route-subscribing `GistComponent` variant

From the source: fields `safeUrl: SafeResourceUrl = ''`, `gistId: string = ''`,
`loading = true`; the constructor subscribes to `route.params`, storing
`params['gistId']` into `this.gistId` on every emission (the route parameter
stream delivers the current value synchronously on subscription);
`ngOnInit` computes `safeUrl` once from the current `gistId` and starts
`setTimeout(() => { this.loading = false; }, 1000)`. -/

structure GistRouteComponent where
  safeUrl : SafeResourceUrl
  gistId : String
  loading : Bool
  /-- Remaining time of the pending `setTimeout`, `none` when no timer is
  pending. -/
  loadingTimer : Option Nat
  deriving Repr, DecidableEq

namespace GistRouteComponent

/-- Constructor: field initializers (`safeUrl = ''`, `loading = true`,
no timer yet), then the `route.params` subscription fires synchronously
with the current route parameter, storing it into `gistId`. -/
def construct (currentParam : String) : GistRouteComponent :=
  { safeUrl := SafeResourceUrl.plain ""
    gistId := currentParam
    loading := true
    loadingTimer := none }

/-- A later emission of the route parameter stream under the same component
instance: the subscription callback stores the new parameter into `gistId`
and does nothing else. -/
def paramsEmit (p : String) (s : GistRouteComponent) : GistRouteComponent :=
  { s with gistId := p }

/-- Hook `ngOnInit`: resolve `safeUrl` from the current `gistId` via the
trust primitive and start the one-shot 1000-time-unit loading timer. -/
def ngOnInit (s : GistRouteComponent) : GistRouteComponent :=
  { s with
    safeUrl := bypassSecurityTrustResourceUrl (gistUrlTemplate s.gistId)
    loadingTimer := some 1000 }

/-- Passage of `d` time units: if the loading timer is pending and its
remaining time is at most `d`, it fires, setting `loading := false`;
otherwise its remaining time decreases. With no pending timer nothing
happens. -/
def elapse (d : Nat) (s : GistRouteComponent) : GistRouteComponent :=
  match s.loadingTimer with
  | none => s
  | some r =>
    if r ≤ d then { s with loading := false, loadingTimer := none }
    else { s with loadingTimer := some (r - d) }

/-- Passage of time in several steps. -/
def run (ds : List Nat) (s : GistRouteComponent) : GistRouteComponent :=
  ds.foldl (fun s d => elapse d s) s

end GistRouteComponent

/-! ## `@Input`-driven `GistComponent` variant

From the source: fields `safeUrl: SafeResourceUrl = ''` and
`@Input() gistId: string = ''`; `ngOnInit` computes `safeUrl` once from the
current `gistId`. The class declares no `ngOnChanges` hook and no timer, so
a change of the input property after initialization only rewrites the
`gistId` field, and time passage has no effect on the component. -/

structure GistInputComponent where
  safeUrl : SafeResourceUrl
  gistId : String
  deriving Repr, DecidableEq

namespace GistInputComponent

/-- Constructor: field initializers only. -/
def construct : GistInputComponent :=
  { safeUrl := SafeResourceUrl.plain "", gistId := "" }

/-- Angular writing the `@Input() gistId` property. The class declares no
`ngOnChanges`, so the write has no further effect. -/
def setInput (id : String) (s : GistInputComponent) : GistInputComponent :=
  { s with gistId := id }

/-- Hook `ngOnInit`: resolve `safeUrl` from the current `gistId` via the
trust primitive. No timer is started (the class has no `loading` field and calls
no `setTimeout`). -/
def ngOnInit (s : GistInputComponent) : GistInputComponent :=
  { s with safeUrl := bypassSecurityTrustResourceUrl (gistUrlTemplate s.gistId) }

/-- Passage of time: the variant registers no timer in `ngOnInit`, so time
passage leaves the component unchanged. -/
def elapse (_d : Nat) (s : GistInputComponent) : GistInputComponent := s

end GistInputComponent

/-! ## `AppComponent`, the shell layout controller

From the source: fields `sideNavOpened = false`, `isSmallScreen = false`;
`ngOnInit` sets `isSmallScreen = window.innerWidth < 800` and
`sideNavOpened = !this.isSmallScreen`, then subscribes to
`resizeSubject.pipe(debounceTime(200))` with a callback that ignores its
`event` argument and sets `isSmallScreen = window.innerWidth < 800` from
the live viewport width; `ngOnDestroy` calls `resizeSubject.unsubscribe()`. -/

structure AppComponent where
  sideNavOpened : Bool
  isSmallScreen : Bool
  deriving Repr, DecidableEq

namespace AppComponent

/-- Constructor: field initializers only. -/
def construct : AppComponent :=
  { sideNavOpened := false, isSmallScreen := false }

/-- Hook `ngOnInit`, given the current `window.innerWidth` `w`: first
`isSmallScreen = w < 800`, then `sideNavOpened = !isSmallScreen`. -/
def ngOnInit (w : Nat) (_s : AppComponent) : AppComponent :=
  { isSmallScreen := decide (w < 800)
    sideNavOpened := !decide (w < 800) }

/-- The debounced-resize subscription callback. `event` is the width value
carried by the debounced stream; the callback ignores it and re-reads the
live `window.innerWidth` (`liveWidth`), setting only `isSmallScreen`. -/
def debouncedNext (_event liveWidth : Nat) (s : AppComponent) : AppComponent :=
  { s with isSmallScreen := decide (liveWidth < 800) }

/-- Modelled from the spec: the close-navigation signal (a button press
handled in the shell template, which is not among the source files) sets
`sideNavOpened = false`. -/
def closeSideNav (s : AppComponent) : AppComponent :=
  { s with sideNavOpened := false }

end AppComponent

/-- The events the shell layout controller reacts to after initialization:
a debounced resize firing (with its carried value and the live width at
firing time) or the explicit close-navigation signal. -/
inductive ShellEvent where
  | resize (carried liveWidth : Nat)
  | close
  deriving Repr, DecidableEq

/-- Whether a shell event is the close-navigation signal. -/
def ShellEvent.isClose : ShellEvent → Bool
  | .resize _ _ => false
  | .close => true

/-- One shell transition. -/
def shellStep (s : AppComponent) : ShellEvent → AppComponent
  | .resize v w => AppComponent.debouncedNext v w s
  | .close => AppComponent.closeSideNav s

/-- A sequence of shell transitions. -/
def shellRun (evs : List ShellEvent) (s : AppComponent) : AppComponent :=
  evs.foldl shellStep s

end MyStudiesApp

namespace MyStudiesApp

/-- C1 helper: the route-variant resolution result for identifier `id`,
starting from a fresh instance whose current route parameter is `id`. -/
def resolveRouteVariant (id : String) : SafeResourceUrl :=
  (GistRouteComponent.ngOnInit (GistRouteComponent.construct id)).safeUrl

/-- C1 helper: the input-variant resolution result for identifier `id`. -/
def resolveInputVariant (id : String) : SafeResourceUrl :=
  (GistInputComponent.ngOnInit
    (GistInputComponent.setInput id GistInputComponent.construct)).safeUrl

/-! ## The rxjs `debounceTime` operator

`AppComponent.ngOnInit` pipes `resizeSubject` through `debounceTime(200)`.
We embed `debounceTime` denotationally on finite timestamped event lists
(time, width), times non-decreasing along the list: each input schedules an
emission of its value `w` time units later, cancelling any emission still
pending; so an input is emitted exactly when the next input (if any)
arrives `w` or more time units later. -/

/-- Denotation of `debounceTime w` on a timestamped input list. -/
def debounceTime (w : Nat) : List (Nat × Nat) → List (Nat × Nat)
  | [] => []
  | [(t, v)] => [(t + w, v)]
  | (t, v) :: (t₂, v₂) :: rest =>
    if t₂ < t + w then debounceTime w ((t₂, v₂) :: rest)
    else (t + w, v) :: debounceTime w ((t₂, v₂) :: rest)

/-- The first element of a timestamped list (default `(0,0)`). -/
def headOf (b : List (Nat × Nat)) : Nat × Nat := b.headD (0, 0)

/-- The last element of a timestamped list (default `(0,0)`). -/
def lastOf (b : List (Nat × Nat)) : Nat × Nat := b.getLastD (0, 0)

/-- A burst for window `w`: consecutive inputs arrive less than `w` time
units apart. -/
def IsBurst (w : Nat) (b : List (Nat × Nat)) : Prop :=
  List.Chain' (fun a c => c.1 < a.1 + w) b

instance (w : Nat) (b : List (Nat × Nat)) : Decidable (IsBurst w b) :=
  inferInstanceAs (Decidable (List.Chain' _ _))

/-! ## The resize pipeline with teardown

`AppComponent` feeds `window:resize` events into `resizeSubject`
(an rxjs `Subject`), pipes them through `debounceTime(200)` to the
subscription callback, and on `ngOnDestroy` calls
`resizeSubject.unsubscribe()`. Per rxjs semantics, `Subject.unsubscribe()`
marks the subject closed (subsequent `next` calls deliver nothing — they
throw `ObjectUnsubscribedError`) and drops its observer list, but it does
not unsubscribe the downstream `debounceTime` subscriber and does not
cancel a timer that `debounceTime` has already scheduled for a previously
delivered value: that timer still fires and runs the subscription
callback. -/

structure ResizePipeline where
  app : AppComponent
  /-- Flag `resizeSubject.closed` — set by `unsubscribe()`. -/
  subjectClosed : Bool
  /-- The emission currently scheduled by `debounceTime(200)`: absolute
  fire time and carried width value. -/
  pending : Option (Nat × Nat)
  /-- Whether `ngOnDestroy` has run. -/
  destroyed : Bool
  deriving Repr, DecidableEq

namespace ResizePipeline

/-- Component creation and `ngOnInit` at live width `w`: initial layout
state, open subject, no pending debounce emission. -/
def init (w : Nat) : ResizePipeline :=
  { app := AppComponent.ngOnInit w AppComponent.construct
    subjectClosed := false
    pending := none
    destroyed := false }

/-- Handler `onWindowResize` at time `t` with `window.innerWidth = width`:
`resizeSubject.next(width)`. On an open subject, `debounceTime(200)`
cancels any pending emission and schedules `(t + 200, width)`; on a closed
subject the value is not delivered. -/
def onWindowResize (t width : Nat) (p : ResizePipeline) : ResizePipeline :=
  if p.subjectClosed then p
  else { p with pending := some (t + 200, width) }

/-- Hook `ngOnDestroy`: `resizeSubject.unsubscribe()` closes the subject. The
downstream `debounceTime` subscriber is not unsubscribed and its already
scheduled timer is not cancelled, so `pending` is left as it is. -/
def ngOnDestroy (p : ResizePipeline) : ResizePipeline :=
  { p with subjectClosed := true, destroyed := true }

/-- The scheduler reaching time `t` with live width `liveWidth`: a pending
debounce emission whose fire time has arrived fires and runs the
subscription callback on the component. -/
def tick (t liveWidth : Nat) (p : ResizePipeline) : ResizePipeline :=
  match p.pending with
  | none => p
  | some (tf, v) =>
    if tf ≤ t then
      { p with pending := none, app := AppComponent.debouncedNext v liveWidth p.app }
    else p

end ResizePipeline

/-! ## The routing table

From `app-routing.module.ts`:
```
const routes: Routes = [
  { path: '', pathMatch: 'full', component: WelcomeComponent },
  { path: ':gistId', component: GistComponent },
  { path: '**', pathMatch: 'full', redirectTo: '' },
];
```
A URL is a list of path segments (the pieces between `/` separators, so a
segment never contains `/`). We embed the subset of the Angular router's
matching semantics these routes use: routes are tried in order; a route
without children must consume the whole segment list; `''` matches the
empty list; a single-segment pattern `:name` matches exactly one segment
and binds it verbatim; `'**'` matches anything; `redirectTo` resolves the
redirect target against the same table. -/

inductive RouteTarget where
  | component (name : String)
  | redirectTo (path : String)
  deriving Repr, DecidableEq

structure Route where
  path : String
  target : RouteTarget
  deriving Repr, DecidableEq

/-- The route table, verbatim from the source. -/
def routes : List Route :=
  [ ⟨"", RouteTarget.component "WelcomeComponent"⟩,
    ⟨":gistId", RouteTarget.component "GistComponent"⟩,
    ⟨"**", RouteTarget.redirectTo ""⟩ ]

/-- Whether a route path pattern is a parameter segment (`:name`). -/
def isParamPattern (pat : String) : Bool :=
  match pat.data with
  | ':' :: _ => true
  | _ => false

/-- The parameter name of a `:name` pattern (the pattern without the
leading `:`). -/
def paramName (pat : String) : String :=
  ⟨pat.data.drop 1⟩

/-- Try one route against a full segment list; on success return its
target and parameter bindings. -/
def matchOne (r : Route) (segs : List String) :
    Option (RouteTarget × List (String × String)) :=
  if r.path = "**" then some (r.target, [])
  else if r.path = "" then
    if segs = [] then some (r.target, []) else none
  else
    match segs with
    | [seg] =>
      if isParamPattern r.path then some (r.target, [(paramName r.path, seg)])
      else if r.path = seg then some (r.target, []) else none
    | _ => none

/-- First-match-wins over a route list. -/
def firstMatch : List Route → List String →
    Option (RouteTarget × List (String × String))
  | [], _ => none
  | r :: rs, segs =>
    match matchOne r segs with
    | some x => some x
    | none => firstMatch rs segs

/-- The segments of a redirect target path. Every redirect target in this
table is `''`, whose segment list is empty. -/
def segsOfPath (p : String) : List String :=
  if p = "" then [] else p.splitOn "/"

/-- The page a resolved URL lands on: a component with its parameter
bindings. -/
inductive Outcome where
  | page (component : String) (params : List (String × String))
  deriving Repr, DecidableEq

/-- Resolve a segment list against the route table, following one level of
redirect (the table's only redirect goes to `''`, which matches a
component route, so one level suffices). -/
def routeOutcome (segs : List String) : Option Outcome :=
  match firstMatch routes segs with
  | some (RouteTarget.component c, ps) => some (Outcome.page c ps)
  | some (RouteTarget.redirectTo p, _) =>
    match firstMatch routes (segsOfPath p) with
    | some (RouteTarget.component c, ps) => some (Outcome.page c ps)
    | _ => none
  | none => none

end MyStudiesApp

open MyStudiesApp

/-- C1: for every identifier string `id`, resolving `id` (in either
component variant) produces a trusted resource locator whose underlying
path is exactly `assets/html/gist_<id>.html`, the identifier substituted
verbatim; in particular a path-traversal-like identifier such as
`../../secret` passes through unescaped. -/
theorem C1_resolve_template :
    (∀ id : String,
      resolveRouteVariant id =
        SafeResourceUrl.trusted ("assets/html/gist_" ++ id ++ ".html") ∧
      resolveInputVariant id =
        SafeResourceUrl.trusted ("assets/html/gist_" ++ id ++ ".html")) ∧
    (resolveRouteVariant "../../secret").underlying =
      "assets/html/gist_../../secret.html" ∧
    (resolveRouteVariant "abc123").underlying = "assets/html/gist_abc123.html" := by
  refine ⟨fun id => ⟨rfl, rfl⟩, rfl, rfl⟩

/-! ## Helper lemmas -/

namespace MyStudiesApp

/-- Time passage is inert while no timer is pending. -/
theorem GistRouteComponent.run_timer_none (ds : List Nat)
    (s : GistRouteComponent) (h : s.loadingTimer = none) :
    GistRouteComponent.run ds s = s := by
  induction ds with
  | nil => rfl
  | cons d ds ih =>
    show GistRouteComponent.run ds (GistRouteComponent.elapse d s) = s
    rw [GistRouteComponent.elapse, h]
    exact ih

/-- Characterization of the loading flag under time passage: with a pending
timer of positive remaining time `r` and `loading = true`, after any
sequence of elapses the flag is true exactly when the total elapsed time is
still below `r`. -/
theorem GistRouteComponent.run_loading (ds : List Nat) (r : Nat)
    (s : GistRouteComponent) (ht : s.loadingTimer = some r)
    (hl : s.loading = true) (hr : 0 < r) :
    (GistRouteComponent.run ds s).loading = decide (ds.sum < r) := by
  induction ds generalizing s r with
  | nil =>
    show s.loading = decide (List.sum [] < r)
    rw [hl]
    simp [hr]
  | cons d ds ih =>
    show (GistRouteComponent.run ds (GistRouteComponent.elapse d s)).loading
        = decide (List.sum (d :: ds) < r)
    have he : GistRouteComponent.elapse d s =
        if r ≤ d then { s with loading := false, loadingTimer := none }
        else { s with loadingTimer := some (r - d) } := by
      rw [GistRouteComponent.elapse, ht]
    rw [he]
    by_cases hd : r ≤ d
    · rw [if_pos hd, GistRouteComponent.run_timer_none _ _ rfl]
      have hns : ¬ (d :: ds).sum < r := by
        simp only [List.sum_cons]
        omega
      simp [hns]
      omega
    · rw [if_neg hd]
      rw [ih (r - d) { s with loadingTimer := some (r - d) } rfl hl (by omega)]
      simp only [List.sum_cons, decide_eq_decide]
      omega

/-- The route-parameter subscription callback never touches `safeUrl`. -/
theorem GistRouteComponent.foldl_paramsEmit_safeUrl (ps : List String)
    (s : GistRouteComponent) :
    (ps.foldl (fun s p => GistRouteComponent.paramsEmit p s) s).safeUrl
      = s.safeUrl := by
  induction ps generalizing s with
  | nil => rfl
  | cons p ps ih => exact ih _

/-- Writing the `@Input` property never touches `safeUrl`. -/
theorem GistInputComponent.foldl_setInput_safeUrl (ids : List String)
    (s : GistInputComponent) :
    (ids.foldl (fun s i => GistInputComponent.setInput i s) s).safeUrl
      = s.safeUrl := by
  induction ids generalizing s with
  | nil => rfl
  | cons i ids ih => exact ih _

/-- The shell's side-navigation flag after a sequence of shell events:
it stays as it was unless some event was the explicit close signal. -/
theorem shellRun_sideNavOpened (evs : List ShellEvent) (s : AppComponent) :
    (shellRun evs s).sideNavOpened
      = (s.sideNavOpened && !evs.any ShellEvent.isClose) := by
  induction evs generalizing s with
  | nil => simp [shellRun]
  | cons e evs ih =>
    cases e with
    | resize v w =>
      show (shellRun evs (AppComponent.debouncedNext v w s)).sideNavOpened = _
      rw [ih]
      simp [AppComponent.debouncedNext, ShellEvent.isClose]
    | close =>
      show (shellRun evs (AppComponent.closeSideNav s)).sideNavOpened = _
      rw [ih]
      simp [AppComponent.closeSideNav, ShellEvent.isClose]

/-- The template path always has positive length: the fixed prefix and
suffix contribute 22 characters around the identifier. -/
theorem gistUrlTemplate_length_pos (id : String) :
    0 < (gistUrlTemplate id).length := by
  have h2 : (gistUrlTemplate id).data
      = "assets/html/gist_".data ++ id.data ++ ".html".data := by
    simp [gistUrlTemplate, String.data_append]
  have h3 : (gistUrlTemplate id).length = (gistUrlTemplate id).data.length :=
    rfl
  rw [h3, h2]
  simp

end MyStudiesApp

/-- C2: for every identifier, the loading flag of the route-subscribing
resolver is true from construction (and stays true under any time passage
before `ngOnInit`); once `ngOnInit` starts the one-shot 1000-time-unit
timer, after any sequence of elapses the flag is true exactly while the
total elapsed time is below 1000 and false from then on — so it flips
exactly once and never returns to true. -/
theorem C2_loading_flag (id : String) (ds pre : List Nat) :
    (GistRouteComponent.construct id).loading = true ∧
    (GistRouteComponent.run pre (GistRouteComponent.construct id)).loading
      = true ∧
    (GistRouteComponent.run ds
        (GistRouteComponent.ngOnInit (GistRouteComponent.construct id))).loading
      = decide (ds.sum < 1000) := by
  refine ⟨?_, ?_, ?_⟩
  · rfl
  · rw [GistRouteComponent.run_timer_none pre _ rfl]
    rfl
  · exact GistRouteComponent.run_loading ds 1000 _ rfl rfl (by decide)

/-- C4: on creation of the shell layout controller with initial viewport
width `w`, `isSmallScreen = (w < 800)` and `sideNavOpened = !isSmallScreen`;
in particular width 700 gives `isSmallScreen = true`,
`sideNavOpened = false`, and width 1200 gives `isSmallScreen = false`,
`sideNavOpened = true`. -/
theorem C4_initial_state :
    (∀ w : Nat,
      (AppComponent.ngOnInit w AppComponent.construct).isSmallScreen
        = decide (w < 800) ∧
      (AppComponent.ngOnInit w AppComponent.construct).sideNavOpened
        = !decide (w < 800)) ∧
    (AppComponent.ngOnInit 700 AppComponent.construct).isSmallScreen = true ∧
    (AppComponent.ngOnInit 700 AppComponent.construct).sideNavOpened = false ∧
    (AppComponent.ngOnInit 1200 AppComponent.construct).isSmallScreen = false ∧
    (AppComponent.ngOnInit 1200 AppComponent.construct).sideNavOpened = true :=
  ⟨fun _ => ⟨rfl, rfl⟩, by decide, by decide, by decide, by decide⟩

/-- C5: a debounced resize transition recomputes only `isSmallScreen` and
leaves `sideNavOpened` unchanged; over any sequence of shell events,
`sideNavOpened` keeps its value unless some event is the explicit close
signal, which sets it to `false`. In particular starting at width 1200
(`sideNavOpened = true`) and resizing to width 500, after the debounce
window `isSmallScreen` is `true` while `sideNavOpened` is still `true`. -/
theorem C5_sideNav_frame :
    (∀ (v w : Nat) (s : AppComponent),
      (AppComponent.debouncedNext v w s).sideNavOpened = s.sideNavOpened) ∧
    (∀ (evs : List ShellEvent) (s : AppComponent),
      (shellRun evs s).sideNavOpened
        = (s.sideNavOpened && !evs.any ShellEvent.isClose)) ∧
    (∀ s : AppComponent, (AppComponent.closeSideNav s).sideNavOpened = false) ∧
    (AppComponent.debouncedNext 500 500
        (AppComponent.ngOnInit 1200 AppComponent.construct)).isSmallScreen
      = true ∧
    (AppComponent.debouncedNext 500 500
        (AppComponent.ngOnInit 1200 AppComponent.construct)).sideNavOpened
      = true :=
  ⟨fun _ _ _ => rfl, shellRun_sideNavOpened, fun _ => rfl, by decide, by decide⟩

/-- C8: in both resolver variants the locator is the empty placeholder
string from construction until resolution, and after resolution its
underlying path is non-empty for every identifier, the empty identifier
included. -/
theorem C8_locator_nonempty :
    (∀ id : String,
      (GistRouteComponent.construct id).safeUrl = SafeResourceUrl.plain "" ∧
      GistInputComponent.construct.safeUrl = SafeResourceUrl.plain "" ∧
      0 < (resolveRouteVariant id).underlying.length ∧
      0 < (resolveInputVariant id).underlying.length) ∧
    (resolveRouteVariant "").underlying = "assets/html/gist_.html" :=
  ⟨fun id => ⟨rfl, rfl, gistUrlTemplate_length_pos id, gistUrlTemplate_length_pos id⟩,
    by decide⟩

/-- C9: the debounced subscription callback ignores the width value carried
by the debounced stream and re-reads the live viewport width, so the new
`isSmallScreen` equals `(live width at firing time) < 800`; this coincides
with the last emitted measurement exactly when the width has not changed
since, and differs otherwise (carried 500 with live width 900 yields
`isSmallScreen = false` although 500 < 800). -/
theorem C9_callback_rereads_live_width :
    (∀ (v v' w : Nat) (s : AppComponent),
      AppComponent.debouncedNext v w s = AppComponent.debouncedNext v' w s) ∧
    (∀ (v w : Nat) (s : AppComponent),
      (AppComponent.debouncedNext v w s).isSmallScreen = decide (w < 800)) ∧
    (∀ (w : Nat) (s : AppComponent),
      (AppComponent.debouncedNext w w s).isSmallScreen = decide (w < 800)) ∧
    (AppComponent.debouncedNext 500 900 AppComponent.construct).isSmallScreen
      = false ∧
    decide (500 < 800) = true :=
  ⟨fun _ _ _ _ => rfl, fun _ _ _ => rfl, fun _ _ => rfl, by decide, by decide⟩

/-- C6 counterexample: the claim says the input-driven variant re-resolves
(produces a new locator) whenever its identifier input changes; the code
has no `ngOnChanges` hook, so after initialization with identifier `a`,
setting the input to `b` updates the stored identifier but leaves `safeUrl`
at the locator for `a`, not the locator for `b`. -/
theorem C6_counterexample :
    (GistInputComponent.setInput "b"
        (GistInputComponent.ngOnInit
          (GistInputComponent.setInput "a" GistInputComponent.construct))).gistId
      = "b" ∧
    (GistInputComponent.setInput "b"
        (GistInputComponent.ngOnInit
          (GistInputComponent.setInput "a" GistInputComponent.construct))).safeUrl
      = (GistInputComponent.ngOnInit
          (GistInputComponent.setInput "a" GistInputComponent.construct)).safeUrl ∧
    (GistInputComponent.setInput "b"
        (GistInputComponent.ngOnInit
          (GistInputComponent.setInput "a" GistInputComponent.construct))).safeUrl
      = SafeResourceUrl.trusted "assets/html/gist_a.html" ∧
    bypassSecurityTrustResourceUrl (gistUrlTemplate "b")
      = SafeResourceUrl.trusted "assets/html/gist_b.html" ∧
    decide
        ((GistInputComponent.setInput "b"
            (GistInputComponent.ngOnInit
              (GistInputComponent.setInput "a"
                GistInputComponent.construct))).safeUrl
          = bypassSecurityTrustResourceUrl (gistUrlTemplate "b"))
      = false := by
  refine ⟨rfl, rfl, rfl, rfl, ?_⟩
  decide

/-- C6 (amended): the route-subscribing variant resolves exactly once at
initialization and never re-resolves when the route parameter later changes
under the same instance; the input-driven variant likewise resolves only at
initialization — a later input change updates the stored identifier but
produces no new locator — and it has no loading-state timer, so time
passage leaves it unchanged. -/
theorem C6_variants_resolve_once :
    (∀ (id0 : String) (ps : List String),
      (ps.foldl (fun s p => GistRouteComponent.paramsEmit p s)
          (GistRouteComponent.ngOnInit
            (GistRouteComponent.construct id0))).safeUrl
        = bypassSecurityTrustResourceUrl (gistUrlTemplate id0)) ∧
    (∀ (id0 : String) (ids : List String),
      (ids.foldl (fun s i => GistInputComponent.setInput i s)
          (GistInputComponent.ngOnInit
            (GistInputComponent.setInput id0 GistInputComponent.construct))).safeUrl
        = bypassSecurityTrustResourceUrl (gistUrlTemplate id0)) ∧
    (∀ (d : Nat) (s : GistInputComponent),
      GistInputComponent.elapse d s = s) := by
  refine ⟨fun id0 ps => ?_, fun id0 ids => ?_, fun _ _ => rfl⟩
  · rw [GistRouteComponent.foldl_paramsEmit_safeUrl]
    rfl
  · rw [GistInputComponent.foldl_setInput_safeUrl]
    rfl

/-- C7: the claim says a debounce window still pending at teardown is
discarded and never updates `isSmallScreen` afterwards. In the code,
`ngOnDestroy` calls `resizeSubject.unsubscribe()`, which closes the subject
but cancels neither the downstream subscription nor the already scheduled
debounce timer; on the trace "resize to width 500 at time 0, teardown at
time 100, timer due at time 200" the pending emission survives teardown and
the callback still flips `isSmallScreen` to `true` on the destroyed
component. -/
theorem C7_pending_survives_teardown :
    (ResizePipeline.init 1200).app.isSmallScreen = false ∧
    (ResizePipeline.ngOnDestroy
        (ResizePipeline.onWindowResize 0 500
          (ResizePipeline.init 1200))).destroyed = true ∧
    (ResizePipeline.ngOnDestroy
        (ResizePipeline.onWindowResize 0 500
          (ResizePipeline.init 1200))).pending = some (200, 500) ∧
    (ResizePipeline.tick 200 500
        (ResizePipeline.ngOnDestroy
          (ResizePipeline.onWindowResize 0 500
            (ResizePipeline.init 1200)))).app.isSmallScreen = true := by
  refine ⟨by decide, by decide, by decide, by decide⟩

namespace MyStudiesApp

/-- One burst at the head of the input, followed by further inputs that
start at least `w` time units after the burst's last input: `debounceTime`
emits exactly one output for the burst — its last value, `w` units after
that last input — and then processes the rest. -/
theorem debounceTime_burst_cons (w : Nat) :
    ∀ (b : List (Nat × Nat)) (x : Nat × Nat) (rest : List (Nat × Nat)),
      List.Chain' (fun a c => c.1 < a.1 + w) (x :: b) →
      (∀ y ∈ rest.head?, (lastOf (x :: b)).1 + w ≤ y.1) →
      debounceTime w ((x :: b) ++ rest)
        = ((lastOf (x :: b)).1 + w, (lastOf (x :: b)).2)
            :: debounceTime w rest := by
  intro b
  induction b with
  | nil =>
    intro x rest _ hrest
    obtain ⟨t, v⟩ := x
    cases rest with
    | nil => simp [debounceTime, lastOf]
    | cons y rest2 =>
      obtain ⟨t2, v2⟩ := y
      have hy : t + w ≤ t2 := by
        have h1 := hrest (t2, v2) (by simp)
        simpa [lastOf] using h1
      show debounceTime w ((t, v) :: (t2, v2) :: rest2) = _
      simp only [debounceTime]
      rw [if_neg (by omega)]
      simp [lastOf]
  | cons x2 b ih =>
    intro x rest hchain hrest
    obtain ⟨t, v⟩ := x
    obtain ⟨t2, v2⟩ := x2
    have hlt : t2 < t + w := by
      cases hchain with
      | cons h1 _ => exact h1
    have htail : List.Chain' (fun a c => c.1 < a.1 + w) ((t2, v2) :: b) := by
      cases hchain with
      | cons _ h2 => exact h2
    have hlast : lastOf ((t, v) :: (t2, v2) :: b) = lastOf ((t2, v2) :: b) := by
      simp [lastOf, List.getLastD_cons]
    show debounceTime w ((t, v) :: (t2, v2) :: (b ++ rest)) = _
    simp only [debounceTime]
    rw [if_pos hlt, hlast]
    exact ih (t2, v2) rest htail (by rw [← hlast]; exact hrest)

end MyStudiesApp

/-- C3: for every finite input sequence organized as a list of bursts
(each burst non-empty with consecutive arrivals less than 200 time-units
apart, and each next burst starting at least 200 time-units after the last
input of the previous one), `debounceTime 200` emits exactly one output per
burst, equal to the last input of that burst, 200 time-units after it — so
no output is produced while inputs keep arriving less than 200 apart, and
distinct bursts each produce their own single output. -/
theorem C3_debounce_bursts (bs : List (List (Nat × Nat)))
    (hne : ∀ b ∈ bs, b ≠ [])
    (hburst : ∀ b ∈ bs, IsBurst 200 b)
    (hsep : List.Chain' (fun b c => (lastOf b).1 + 200 ≤ (headOf c).1) bs) :
    debounceTime 200 bs.flatten
      = bs.map (fun b => ((lastOf b).1 + 200, (lastOf b).2)) := by
  induction bs with
  | nil => rfl
  | cons b bs ih =>
    obtain ⟨x, b2, rfl⟩ : ∃ x b2, b = x :: b2 := by
      cases b with
      | nil => exact absurd rfl (hne [] (by simp))
      | cons x b2 => exact ⟨x, b2, rfl⟩
    have hchain : List.Chain' (fun a c => c.1 < a.1 + 200) (x :: b2) :=
      hburst (x :: b2) (by simp)
    have hrest : ∀ y ∈ bs.flatten.head?, (lastOf (x :: b2)).1 + 200 ≤ y.1 := by
      cases bs with
      | nil => intro y hy; simp at hy
      | cons c bs2 =>
        obtain ⟨z, c2, rfl⟩ : ∃ z c2, c = z :: c2 := by
          cases c with
          | nil => exact absurd rfl (hne [] (by simp))
          | cons z c2 => exact ⟨z, c2, rfl⟩
        have hsep1 : (lastOf (x :: b2)).1 + 200 ≤ (headOf (z :: c2)).1 := by
          cases hsep with
          | cons h1 _ => exact h1
        intro y hy
        obtain rfl : z = y := by simpa using hy
        simpa [headOf] using hsep1
    show debounceTime 200 ((x :: b2) ++ bs.flatten) = _
    rw [debounceTime_burst_cons 200 b2 x bs.flatten hchain hrest]
    rw [ih (fun c hc => hne c (by simp [hc]))
        (fun c hc => hburst c (by simp [hc])) hsep.tail]
    rfl

/-- C3 witness: the burst `(0,500),(100,600)` followed, 300 time-units
after its last input, by the one-input burst `(400,700)` yields exactly
one output per burst: `(300,600)` and `(600,700)`. -/
theorem C3_debounce_bursts_witness :
    debounceTime 200 [(0, 500), (100, 600), (400, 700)]
      = [(300, 600), (600, 700)] :=
  C3_debounce_bursts [[(0, 500), (100, 600)], [(400, 700)]]
    (by simp)
    (by norm_num [List.forall_mem_cons, IsBurst, List.chain'_cons])
    (by norm_num [List.chain'_cons, lastOf, headOf, List.getLastD_cons])

/-- C10: against the routing table, a URL whose segments are `/`-free
strings resolves to the gist page with a bound identifier only when the URL
is exactly that one segment, so a routed identifier never contains `/`;
the empty path shows the welcome page, and every path of two or more
segments falls to the wildcard route, which redirects to the empty path
and hence also shows the welcome page. -/
theorem C10_routed_identifier_single_segment (segs : List String)
    (id : String) (hseg : ∀ s ∈ segs, '/' ∉ s.data)
    (h : routeOutcome segs
        = some (Outcome.page "GistComponent" [("gistId", id)])) :
    segs = [id] ∧ '/' ∉ id.data ∧
    routeOutcome [] = some (Outcome.page "WelcomeComponent" []) ∧
    ∀ (a b : String) (rest : List String),
      routeOutcome (a :: b :: rest)
        = some (Outcome.page "WelcomeComponent" []) := by
  have hwelcome : routeOutcome [] = some (Outcome.page "WelcomeComponent" []) :=
    rfl
  have hmulti : ∀ (a b : String) (rest : List String),
      routeOutcome (a :: b :: rest)
        = some (Outcome.page "WelcomeComponent" []) := fun _ _ _ => rfl
  cases segs with
  | nil =>
    injection hwelcome.symm.trans h with h1
    injection h1 with h2 h3
    exact absurd h2 (by decide)
  | cons seg segs2 =>
    cases segs2 with
    | nil =>
      have hseg1 : routeOutcome [seg]
          = some (Outcome.page "GistComponent" [("gistId", seg)]) := rfl
      injection hseg1.symm.trans h with h1
      injection h1 with h2 h3
      injection h3 with h4 h5
      obtain rfl : seg = id := congrArg Prod.snd h4
      exact ⟨rfl, hseg seg (by simp), hwelcome, hmulti⟩
    | cons seg2 segs3 =>
      injection (hmulti seg seg2 segs3).symm.trans h with h1
      injection h1 with h2 h3
      exact absurd h2 (by decide)

/-- C10 witness: the one-segment URL `abc` resolves to the gist page with
identifier `abc`, which contains no `/`. -/
theorem C10_routed_identifier_single_segment_witness :
    ["abc"] = ["abc"] ∧ '/' ∉ "abc".data ∧
    routeOutcome [] = some (Outcome.page "WelcomeComponent" []) ∧
    ∀ (a b : String) (rest : List String),
      routeOutcome (a :: b :: rest)
        = some (Outcome.page "WelcomeComponent" []) :=
  C10_routed_identifier_single_segment ["abc"] "abc" (by decide) (by decide)
